import Mathlib

/-!
Shallow embedding of `src/taxyman.py`, the income-tax regime comparator.

Python floats are modelled as exact rationals in `ℚ`; the slab rates
`0.05`, `0.10`, ... are exact decimal literals, so every arithmetic step
of the source is represented exactly.  Fallible Python operations are
modelled with `Except`: Python division raises `ZeroDivisionError` on a
zero denominator, and the input guard of `tax_calculator` reports
invalid income.  The pandas `DataFrame(breakdown)` is modelled as the
list of its rows.
-/

/-- Upper bound of a tax slab: a finite rational bound, or the
`float('inf')` sentinel used for the last slab of each table. -/
inductive Bound where
  | fin (q : ℚ)
  | inf
deriving DecidableEq

/-- Python `min(income, slab)` where `slab` may be `float('inf')`
(in which case the minimum is `income`). -/
def Bound.minWith (income : ℚ) : Bound → ℚ
  | .fin q => min income q
  | .inf => income

/-- One row of the `breakdown` list built in `calculate_tax`
(taxyman.py lines 68-73).  `taxableAmount` is the dict entry
"Taxable Amount", `tax` is "Tax"; `lower`, `upper` and `rate` carry the
numeric data rendered into the "Slab Range" and "Rate" strings. -/
structure BreakdownLine where
  lower : ℚ
  upper : Bound
  taxableAmount : ℚ
  rate : ℚ
  tax : ℚ
deriving DecidableEq

/-- The `for slab, rate in slabs` loop of `calculate_tax`
(taxyman.py lines 63-74), with the loop state `(tax, prev_slab,
breakdown)` passed explicitly.  Once `prev_slab` has been set to
`float('inf')` the Python test `income > prev_slab` is false, so the
step leaves the state unchanged. -/
def calculate_tax_loop (income : ℚ) :
    List (Bound × ℚ) → ℚ → Bound → List BreakdownLine → ℚ × List BreakdownLine
  | [], tax, _, breakdown => (tax, breakdown)
  | _ :: rest, tax, .inf, breakdown => calculate_tax_loop income rest tax .inf breakdown
  | (slab, rate) :: rest, tax, .fin p, breakdown =>
    if p < income then
      let slab_amount := Bound.minWith income slab - p
      let slab_tax := slab_amount * rate
      calculate_tax_loop income rest (tax + slab_tax) slab
        (breakdown ++ [⟨p, slab, slab_amount, rate, slab_tax⟩])
    else
      calculate_tax_loop income rest tax (.fin p) breakdown

/-- `calculate_tax` (taxyman.py lines 58-75): walk the slab list with
`tax = 0`, `prev_slab = 0` and an empty breakdown, returning the pair
`(tax, breakdown)`. -/
def calculate_tax (income : ℚ) (slabs : List (Bound × ℚ)) : ℚ × List BreakdownLine :=
  calculate_tax_loop income slabs 0 (.fin 0) []

/-- The 2024-25 slab table (taxyman.py lines 35-42). -/
def slabs_2024_25 : List (Bound × ℚ) :=
  [(.fin 300000, 0), (.fin 700000, 0.05), (.fin 1000000, 0.10),
   (.fin 1200000, 0.15), (.fin 1500000, 0.20), (.inf, 0.30)]

/-- The 2025-26 slab table (taxyman.py lines 47-55). -/
def slabs_2025_26 : List (Bound × ℚ) :=
  [(.fin 400000, 0), (.fin 800000, 0.05), (.fin 1200000, 0.10),
   (.fin 1600000, 0.15), (.fin 2000000, 0.20), (.fin 2400000, 0.25), (.inf, 0.30)]

/-- `calculate_new_regime_2024_25` (taxyman.py lines 33-43):
`taxable_income = max(income - 75_000, 0)` fed to `calculate_tax`. -/
def calculate_new_regime_2024_25 (income : ℚ) : ℚ × List BreakdownLine :=
  calculate_tax (max (income - 75000) 0) slabs_2024_25

/-- `calculate_new_regime_2025_26` (taxyman.py lines 45-56). -/
def calculate_new_regime_2025_26 (income : ℚ) : ℚ × List BreakdownLine :=
  calculate_tax (max (income - 75000) 0) slabs_2025_26

/-- Errors the Python interpreter can raise on the `tax_calculator`
path: the explicit invalid-income guard (modelling the early return of
line 163), and `ZeroDivisionError`. -/
inductive PyError where
  | invalidIncome
  | zeroDivisionError
deriving DecidableEq

/-- Python division, which raises `ZeroDivisionError` when the
denominator is zero (also for floats). -/
def pydiv (a b : ℚ) : Except PyError ℚ :=
  if b = 0 then .error .zeroDivisionError else .ok (a / b)

/-- Python `int()` on a float: truncation toward zero. -/
def pyint (q : ℚ) : ℤ :=
  if q < 0 then -⌊-q⌋ else ⌊q⌋

/-- `range(0, int(income) + 100_000, 100_000)` (taxyman.py line 193):
the multiples of 100000 that are strictly below `int(income) + 100000`. -/
def income_brackets (income : ℚ) : List ℕ :=
  (List.range (((pyint income).toNat + 100000 + 99999) / 100000)).map (fun k => k * 100000)

/-- One row of the `bracket_savings` table (taxyman.py lines 198-203);
the "Income Bracket" label renders the range from `bracket` to
`bracket + 100000`. -/
structure BracketRow where
  bracket : ℕ
  tax_2024_25 : ℚ
  tax_2025_26 : ℚ
  savings : ℚ
deriving DecidableEq

/-- The bracket sweep loop of `tax_calculator` (taxyman.py lines
192-203): re-run both regimes at each bracket boundary itself,
discarding the breakdown DataFrames. -/
def bracket_savings (income : ℚ) : List BracketRow :=
  (income_brackets income).map (fun b =>
    { bracket := b
      tax_2024_25 := (calculate_new_regime_2024_25 (b : ℚ)).1
      tax_2025_26 := (calculate_new_regime_2025_26 (b : ℚ)).1
      savings := (calculate_new_regime_2024_25 (b : ℚ)).1
        - (calculate_new_regime_2025_26 (b : ℚ)).1 })

/-- The computed content of a successful `tax_calculator` call:
the two regime taxes and breakdowns, the savings, the savings
percentage interpolated into the recommendation bar, the recommendation
(`true` renders "Switch to 2025-26 Regime", `false` renders "Stick to
2024-25 Regime"), and the bracket-savings table. -/
structure TaxCalcOutput where
  old_tax : ℚ
  new_tax : ℚ
  savings : ℚ
  savingsPct : ℚ
  recommendSwitch : Bool
  old_breakdown : List BreakdownLine
  new_breakdown : List BreakdownLine
  bracket_rows : List BracketRow
deriving DecidableEq

/-- `tax_calculator` (taxyman.py lines 161-233).  `none` models a
missing (`None`) income.  The guard of line 162 short-circuits with an
error before any tax is computed.  On the success path the source
builds the `recommendation_bar` f-string, whose interpolation of
`savings/old_tax*100` (line 173) is the first fallible operation; it
raises `ZeroDivisionError` before any output is produced, which the
model captures by sequencing `pydiv` before the result record. -/
def tax_calculator (income : Option ℚ) : Except PyError TaxCalcOutput :=
  match income with
  | none => .error .invalidIncome
  | some inc =>
    if inc < 0 then .error .invalidIncome
    else
      let old := calculate_new_regime_2024_25 inc
      let new := calculate_new_regime_2025_26 inc
      let savings := old.1 - new.1
      match pydiv savings old.1 with
      | .error e => .error e
      | .ok q =>
        .ok { old_tax := old.1
              new_tax := new.1
              savings := savings
              savingsPct := q * 100
              recommendSwitch := decide (savings > 0)
              old_breakdown := old.2
              new_breakdown := new.2
              bracket_rows := bracket_savings inc }

/-- A slab list is a chain above `p`: finite upper bounds strictly
increase starting from `p`, and an infinite bound can only be the last
slab.  Both hardcoded tables are chains above 0. -/
def slabChain : ℚ → List (Bound × ℚ) → Prop
  | _, [] => False
  | _, (.inf, _) :: rest => rest = []
  | p, (.fin q, _) :: rest => p < q ∧ slabChain q rest

/-! ### Generic lemmas about the slab loop -/

/-- If the taxable income does not exceed `prev_slab`, the rest of the
loop leaves the state unchanged (`prev_slab` is only advanced inside
the entered branch). -/
theorem loop_skip (income : ℚ) :
    ∀ (slabs : List (Bound × ℚ)) (tax p : ℚ) (bd : List BreakdownLine),
      ¬ p < income → calculate_tax_loop income slabs tax (.fin p) bd = (tax, bd) := by
  intro slabs
  induction slabs with
  | nil => intro tax p bd _; rfl
  | cons s rest ih =>
      intro tax p bd hp
      obtain ⟨slab, rate⟩ := s
      simp only [calculate_tax_loop, if_neg hp]
      exact ih tax p bd hp

/-- The breakdown accumulator is only appended to: running the loop on
`bd` yields `bd` followed by the lines produced from an empty
accumulator. -/
theorem loop_bd_append (income : ℚ) :
    ∀ (slabs : List (Bound × ℚ)) (tax : ℚ) (prev : Bound) (bd : List BreakdownLine),
      (calculate_tax_loop income slabs tax prev bd).2
        = bd ++ (calculate_tax_loop income slabs tax prev []).2 := by
  intro slabs
  induction slabs with
  | nil => intro tax prev bd; simp [calculate_tax_loop]
  | cons s rest ih =>
      intro tax prev bd
      obtain ⟨slab, rate⟩ := s
      match prev with
      | .inf => simpa only [calculate_tax_loop] using ih tax .inf bd
      | .fin p =>
          by_cases hp : p < income
          · simp only [calculate_tax_loop, if_pos hp]
            rw [ih _ slab (bd ++ [_]), ih _ slab ([] ++ [_])]
            simp
          · simp only [calculate_tax_loop, if_neg hp]
            exact ih tax (.fin p) bd

/-- Accumulator invariant: the final `tax` equals the incoming `tax`
plus the taxes of the newly appended breakdown lines. -/
theorem loop_fst_eq_sum (income : ℚ) :
    ∀ (slabs : List (Bound × ℚ)) (tax : ℚ) (prev : Bound) (bd : List BreakdownLine),
      (calculate_tax_loop income slabs tax prev bd).1
          + (bd.map BreakdownLine.tax).sum
        = tax + (((calculate_tax_loop income slabs tax prev bd).2).map BreakdownLine.tax).sum := by
  intro slabs
  induction slabs with
  | nil => intro tax prev bd; simp [calculate_tax_loop]
  | cons s rest ih =>
      intro tax prev bd
      obtain ⟨slab, rate⟩ := s
      match prev with
      | .inf => simpa only [calculate_tax_loop] using ih tax .inf bd
      | .fin p =>
          by_cases hp : p < income
          · simp only [calculate_tax_loop, if_pos hp]
            have h := ih (tax + (Bound.minWith income slab - p) * rate) slab
              (bd ++ [⟨p, slab, Bound.minWith income slab - p, rate,
                (Bound.minWith income slab - p) * rate⟩])
            simp only [List.map_append, List.sum_append, List.map_cons, List.map_nil,
              List.sum_cons, List.sum_nil] at h ⊢
            linarith
          · simp only [calculate_tax_loop, if_neg hp]
            exact ih tax (.fin p) bd


/-! ### Closed forms for the total tax of the two concrete tables -/

/-- Closed form of the 2024-25 total tax as a function of the taxable
income `t` (after the exemption). -/
theorem calc_A_eq (t : ℚ) : (calculate_tax t slabs_2024_25).1 =
    if t ≤ 300000 then 0
    else if t ≤ 700000 then (t - 300000) * 0.05
    else if t ≤ 1000000 then 20000 + (t - 700000) * 0.10
    else if t ≤ 1200000 then 50000 + (t - 1000000) * 0.15
    else if t ≤ 1500000 then 80000 + (t - 1200000) * 0.20
    else 140000 + (t - 1500000) * 0.30 := by
  rcases le_or_lt t 0 with h0 | h0
  · rw [calculate_tax, loop_skip t slabs_2024_25 0 0 [] (not_lt.mpr h0),
      if_pos (show t ≤ 300000 by linarith)]
  · rcases le_or_lt t 300000 with h1 | h1
    · simp only [calculate_tax, slabs_2024_25, calculate_tax_loop, Bound.minWith,
        if_pos h0, if_neg (not_lt.mpr h1), if_pos h1]
      norm_num
    · rcases le_or_lt t 700000 with h2 | h2
      · simp only [calculate_tax, slabs_2024_25, calculate_tax_loop, Bound.minWith,
          if_pos h0, if_pos h1, if_neg (not_lt.mpr h2),
          min_eq_right h1.le, min_eq_left h2,
          if_neg (not_le.mpr h1), if_pos h2]
        norm_num
      · rcases le_or_lt t 1000000 with h3 | h3
        · simp only [calculate_tax, slabs_2024_25, calculate_tax_loop, Bound.minWith,
            if_pos h0, if_pos h1, if_pos h2, if_neg (not_lt.mpr h3),
            min_eq_right h1.le, min_eq_right h2.le, min_eq_left h3,
            if_neg (not_le.mpr h1), if_neg (not_le.mpr h2), if_pos h3]
          norm_num
        · rcases le_or_lt t 1200000 with h4 | h4
          · simp only [calculate_tax, slabs_2024_25, calculate_tax_loop, Bound.minWith,
              if_pos h0, if_pos h1, if_pos h2, if_pos h3, if_neg (not_lt.mpr h4),
              min_eq_right h1.le, min_eq_right h2.le, min_eq_right h3.le, min_eq_left h4,
              if_neg (not_le.mpr h1), if_neg (not_le.mpr h2), if_neg (not_le.mpr h3),
              if_pos h4]
            norm_num
          · rcases le_or_lt t 1500000 with h5 | h5
            · simp only [calculate_tax, slabs_2024_25, calculate_tax_loop, Bound.minWith,
                if_pos h0, if_pos h1, if_pos h2, if_pos h3, if_pos h4,
                if_neg (not_lt.mpr h5),
                min_eq_right h1.le, min_eq_right h2.le, min_eq_right h3.le,
                min_eq_right h4.le, min_eq_left h5,
                if_neg (not_le.mpr h1), if_neg (not_le.mpr h2), if_neg (not_le.mpr h3),
                if_neg (not_le.mpr h4), if_pos h5]
              norm_num
            · simp only [calculate_tax, slabs_2024_25, calculate_tax_loop, Bound.minWith,
                if_pos h0, if_pos h1, if_pos h2, if_pos h3, if_pos h4, if_pos h5,
                min_eq_right h1.le, min_eq_right h2.le, min_eq_right h3.le,
                min_eq_right h4.le, min_eq_right h5.le,
                if_neg (not_le.mpr h1), if_neg (not_le.mpr h2), if_neg (not_le.mpr h3),
                if_neg (not_le.mpr h4), if_neg (not_le.mpr h5)]
              norm_num

/-- Closed form of the 2025-26 total tax as a function of the taxable
income `t` (after the exemption). -/
theorem calc_B_eq (t : ℚ) : (calculate_tax t slabs_2025_26).1 =
    if t ≤ 400000 then 0
    else if t ≤ 800000 then (t - 400000) * 0.05
    else if t ≤ 1200000 then 20000 + (t - 800000) * 0.10
    else if t ≤ 1600000 then 60000 + (t - 1200000) * 0.15
    else if t ≤ 2000000 then 120000 + (t - 1600000) * 0.20
    else if t ≤ 2400000 then 200000 + (t - 2000000) * 0.25
    else 300000 + (t - 2400000) * 0.30 := by
  rcases le_or_lt t 0 with h0 | h0
  · rw [calculate_tax, loop_skip t slabs_2025_26 0 0 [] (not_lt.mpr h0),
      if_pos (show t ≤ 400000 by linarith)]
  · rcases le_or_lt t 400000 with h1 | h1
    · simp only [calculate_tax, slabs_2025_26, calculate_tax_loop, Bound.minWith,
        if_pos h0, if_neg (not_lt.mpr h1), if_pos h1]
      norm_num
    · rcases le_or_lt t 800000 with h2 | h2
      · simp only [calculate_tax, slabs_2025_26, calculate_tax_loop, Bound.minWith,
          if_pos h0, if_pos h1, if_neg (not_lt.mpr h2),
          min_eq_right h1.le, min_eq_left h2,
          if_neg (not_le.mpr h1), if_pos h2]
        norm_num
      · rcases le_or_lt t 1200000 with h3 | h3
        · simp only [calculate_tax, slabs_2025_26, calculate_tax_loop, Bound.minWith,
            if_pos h0, if_pos h1, if_pos h2, if_neg (not_lt.mpr h3),
            min_eq_right h1.le, min_eq_right h2.le, min_eq_left h3,
            if_neg (not_le.mpr h1), if_neg (not_le.mpr h2), if_pos h3]
          norm_num
        · rcases le_or_lt t 1600000 with h4 | h4
          · simp only [calculate_tax, slabs_2025_26, calculate_tax_loop, Bound.minWith,
              if_pos h0, if_pos h1, if_pos h2, if_pos h3, if_neg (not_lt.mpr h4),
              min_eq_right h1.le, min_eq_right h2.le, min_eq_right h3.le, min_eq_left h4,
              if_neg (not_le.mpr h1), if_neg (not_le.mpr h2), if_neg (not_le.mpr h3),
              if_pos h4]
            norm_num
          · rcases le_or_lt t 2000000 with h5 | h5
            · simp only [calculate_tax, slabs_2025_26, calculate_tax_loop, Bound.minWith,
                if_pos h0, if_pos h1, if_pos h2, if_pos h3, if_pos h4,
                if_neg (not_lt.mpr h5),
                min_eq_right h1.le, min_eq_right h2.le, min_eq_right h3.le,
                min_eq_right h4.le, min_eq_left h5,
                if_neg (not_le.mpr h1), if_neg (not_le.mpr h2), if_neg (not_le.mpr h3),
                if_neg (not_le.mpr h4), if_pos h5]
              norm_num
            · rcases le_or_lt t 2400000 with h6 | h6
              · simp only [calculate_tax, slabs_2025_26, calculate_tax_loop, Bound.minWith,
                  if_pos h0, if_pos h1, if_pos h2, if_pos h3, if_pos h4, if_pos h5,
                  if_neg (not_lt.mpr h6),
                  min_eq_right h1.le, min_eq_right h2.le, min_eq_right h3.le,
                  min_eq_right h4.le, min_eq_right h5.le, min_eq_left h6,
                  if_neg (not_le.mpr h1), if_neg (not_le.mpr h2), if_neg (not_le.mpr h3),
                  if_neg (not_le.mpr h4), if_neg (not_le.mpr h5), if_pos h6]
                norm_num
              · simp only [calculate_tax, slabs_2025_26, calculate_tax_loop, Bound.minWith,
                  if_pos h0, if_pos h1, if_pos h2, if_pos h3, if_pos h4, if_pos h5, if_pos h6,
                  min_eq_right h1.le, min_eq_right h2.le, min_eq_right h3.le,
                  min_eq_right h4.le, min_eq_right h5.le, min_eq_right h6.le,
                  if_neg (not_le.mpr h1), if_neg (not_le.mpr h2), if_neg (not_le.mpr h3),
                  if_neg (not_le.mpr h4), if_neg (not_le.mpr h5), if_neg (not_le.mpr h6)]
                norm_num

/-- The 2024-25 total tax is nonnegative. -/
theorem calc_A_nonneg (t : ℚ) : 0 ≤ (calculate_tax t slabs_2024_25).1 := by
  rw [calc_A_eq]; split_ifs <;> linarith

/-- The 2025-26 total tax is nonnegative. -/
theorem calc_B_nonneg (t : ℚ) : 0 ≤ (calculate_tax t slabs_2025_26).1 := by
  rw [calc_B_eq]; split_ifs <;> linarith

/-- The 2024-25 total tax is monotone in the taxable income. -/
theorem calc_A_mono {t1 t2 : ℚ} (h : t1 ≤ t2) :
    (calculate_tax t1 slabs_2024_25).1 ≤ (calculate_tax t2 slabs_2024_25).1 := by
  rw [calc_A_eq, calc_A_eq]; split_ifs <;> linarith

set_option maxHeartbeats 800000 in
/-- The 2025-26 total tax is monotone in the taxable income. -/
theorem calc_B_mono {t1 t2 : ℚ} (h : t1 ≤ t2) :
    (calculate_tax t1 slabs_2025_26).1 ≤ (calculate_tax t2 slabs_2025_26).1 := by
  rw [calc_B_eq, calc_B_eq]; split_ifs <;> linarith

/-- At every taxable income the 2025-26 table taxes no more than the
2024-25 table. -/
theorem calc_B_le_calc_A (t : ℚ) :
    (calculate_tax t slabs_2025_26).1 ≤ (calculate_tax t slabs_2024_25).1 := by
  rw [calc_A_eq, calc_B_eq]; split_ifs <;> linarith

/-! ### Structural facts about well-formed slab tables -/

theorem slabChain_2024_25 : slabChain 0 slabs_2024_25 := by
  simp [slabChain, slabs_2024_25]; norm_num

theorem slabChain_2025_26 : slabChain 0 slabs_2025_26 := by
  simp [slabChain, slabs_2025_26]; norm_num

/-- When the loop starts strictly below the taxable income, the new
breakdown lines partition exactly the income range from `p` up to
`income`: their taxable amounts sum to `income - p`. -/
theorem loop_amount_sum (income : ℚ) :
    ∀ (slabs : List (Bound × ℚ)) (p tax : ℚ) (bd : List BreakdownLine),
      slabChain p slabs → p < income →
      (((calculate_tax_loop income slabs tax (.fin p) bd).2).map BreakdownLine.taxableAmount).sum
        = (bd.map BreakdownLine.taxableAmount).sum + (income - p) := by
  intro slabs
  induction slabs with
  | nil => intro p tax bd hchain _; exact absurd hchain id
  | cons s rest ih =>
      intro p tax bd hchain hp
      obtain ⟨slab, rate⟩ := s
      match slab with
      | .inf =>
          have hrest : rest = [] := hchain
          subst hrest
          simp only [calculate_tax_loop, if_pos hp, Bound.minWith]
          simp
      | .fin q =>
          obtain ⟨hpq, hchain2⟩ := hchain
          rcases le_or_lt income q with hq | hq
          · -- the current slab absorbs the rest of the income
            simp only [calculate_tax_loop, if_pos hp, Bound.minWith, min_eq_left hq]
            rw [loop_bd_append, loop_skip income rest _ q _ (not_lt.mpr hq)]
            simp
          · -- the slab is filled completely; continue above `q`
            simp only [calculate_tax_loop, if_pos hp, Bound.minWith, min_eq_right hq.le]
            rw [ih q _ (bd ++ [_]) hchain2 hq]
            simp
            ring

/-- Every breakdown line appended while walking a chain of slabs has a
strictly positive taxable amount: a line is only appended when the
income strictly exceeds the slab's lower bound. -/
theorem loop_amount_pos (income : ℚ) :
    ∀ (slabs : List (Bound × ℚ)) (p tax : ℚ) (bd : List BreakdownLine),
      slabChain p slabs →
      (∀ l ∈ bd, 0 < l.taxableAmount) →
      ∀ l ∈ (calculate_tax_loop income slabs tax (.fin p) bd).2, 0 < l.taxableAmount := by
  intro slabs
  induction slabs with
  | nil => intro p tax bd hchain _; exact absurd hchain id
  | cons s rest ih =>
      intro p tax bd hchain hbd
      obtain ⟨slab, rate⟩ := s
      by_cases hp : p < income
      · match slab with
        | .inf =>
            have hrest : rest = [] := hchain
            subst hrest
            simp only [calculate_tax_loop, if_pos hp, Bound.minWith]
            intro l hl
            rcases List.mem_append.mp hl with h | h
            · exact hbd l h
            · rcases List.mem_singleton.mp h with rfl
              simpa using sub_pos.mpr hp
        | .fin q =>
            obtain ⟨hpq, hchain2⟩ := hchain
            simp only [calculate_tax_loop, if_pos hp, Bound.minWith]
            refine ih q _ (bd ++ [_]) hchain2 ?_
            intro l hl
            rcases List.mem_append.mp hl with h | h
            · exact hbd l h
            · rcases List.mem_singleton.mp h with rfl
              simpa using sub_pos.mpr (lt_min hp hpq)
      · match slab with
        | .inf =>
            have hrest : rest = [] := hchain
            subst hrest
            simp only [calculate_tax_loop, if_neg hp]
            exact hbd
        | .fin q =>
            rw [loop_skip income _ tax p bd hp]
            exact hbd

/-! ### Claim theorems -/

/-- C7: at the exemption boundary, income = 75,000 with the 75,000
exemption yields totalTax = 0 under both regimes' slab tables. -/
theorem c7_exemption_boundary :
    (calculate_new_regime_2024_25 75000).1 = 0 ∧
    (calculate_new_regime_2025_26 75000).1 = 0 := by
  have h : max ((75000 : ℚ) - 75000) 0 = 0 := by norm_num
  constructor
  · simp only [calculate_new_regime_2024_25]
    rw [h, calc_A_eq]
    norm_num
  · simp only [calculate_new_regime_2025_26]
    rw [h, calc_B_eq]
    norm_num

/-- C6: at income = 1,500,000 the 2024-25 regime owes 125,000, the
2025-26 regime owes 93,750, the savings are 31,250, and the
recommendation is to switch to the 2025-26 regime (prefer Regime B). -/
theorem c6_income_1500000 :
    (calculate_new_regime_2024_25 1500000).1 = 125000 ∧
    (calculate_new_regime_2025_26 1500000).1 = 93750 ∧
    ∃ r, tax_calculator (some 1500000) = Except.ok r ∧
      r.old_tax = 125000 ∧ r.new_tax = 93750 ∧
      r.savings = 31250 ∧ r.recommendSwitch = true := by
  have hA : (calculate_new_regime_2024_25 1500000).1 = 125000 := by
    simp only [calculate_new_regime_2024_25]
    rw [show max ((1500000 : ℚ) - 75000) 0 = 1425000 by norm_num, calc_A_eq]
    norm_num
  have hB : (calculate_new_regime_2025_26 1500000).1 = 93750 := by
    simp only [calculate_new_regime_2025_26]
    rw [show max ((1500000 : ℚ) - 75000) 0 = 1425000 by norm_num, calc_B_eq]
    norm_num
  refine ⟨hA, hB, ?_⟩
  simp only [tax_calculator]
  rw [if_neg (by norm_num : ¬ (1500000 : ℚ) < 0), hA, hB]
  rw [show pydiv (125000 - 93750) 125000 = Except.ok ((125000 - 93750) / 125000) from
    by rw [pydiv, if_neg (by norm_num)]]
  refine ⟨_, rfl, rfl, rfl, by norm_num, ?_⟩
  simp only [decide_eq_true_eq]
  norm_num

/-- C8: a missing (None) or negative income makes `tax_calculator`
return the invalid-income error and nothing else: the computation is
short-circuited, no partial results are produced, and a negative income
is never passed to the tax computation. -/
theorem c8_invalid_income :
    tax_calculator none = Except.error PyError.invalidIncome ∧
    ∀ inc : ℚ, inc < 0 →
      tax_calculator (some inc) = Except.error PyError.invalidIncome := by
  refine ⟨rfl, ?_⟩
  intro inc h
  simp only [tax_calculator, if_pos h]

/-- C8 witness: the invalid-income error at the concrete input -1. -/
theorem c8_invalid_income_witness :
    tax_calculator none = Except.error PyError.invalidIncome ∧
    tax_calculator (some (-1)) = Except.error PyError.invalidIncome :=
  ⟨c8_invalid_income.1, c8_invalid_income.2 (-1) (by norm_num)⟩

/-- C1 counterexample: at income 0 the 2024-25 total tax is 0, and
`tax_calculator` does raise an (uncaught) division-by-zero error while
computing the savings percentage, contrary to the claim that zero-tax
incomes are handled as a defined special case. -/
theorem c1_counterexample :
    (calculate_new_regime_2024_25 0).1 = 0 ∧
    tax_calculator (some 0) = Except.error PyError.zeroDivisionError := by
  have hA : (calculate_new_regime_2024_25 0).1 = 0 := by
    simp only [calculate_new_regime_2024_25]
    rw [show max ((0 : ℚ) - 75000) 0 = 0 by norm_num, calc_A_eq]
    norm_num
  refine ⟨hA, ?_⟩
  simp only [tax_calculator]
  rw [if_neg (by norm_num : ¬ (0 : ℚ) < 0), hA]
  rw [show pydiv ((0 : ℚ) - (calculate_new_regime_2025_26 0).1) 0
      = Except.error PyError.zeroDivisionError from by rw [pydiv, if_pos rfl]]

/-- C1 (amended): whenever the 2024-25 total tax is 0, computing the
savings percentage divides by zero, so `tax_calculator` raises an
uncaught ZeroDivisionError instead of handling the case. -/
theorem c1_division_by_zero (income : ℚ) (h0 : 0 ≤ income)
    (hzero : (calculate_new_regime_2024_25 income).1 = 0) :
    tax_calculator (some income) = Except.error PyError.zeroDivisionError := by
  simp only [tax_calculator]
  rw [if_neg (not_lt.mpr h0), hzero]
  rw [show pydiv ((0 : ℚ) - (calculate_new_regime_2025_26 income).1) 0
      = Except.error PyError.zeroDivisionError from by rw [pydiv, if_pos rfl]]

/-- C1 witness: the division-by-zero error observed at income 75,000. -/
theorem c1_division_by_zero_witness :
    tax_calculator (some 75000) = Except.error PyError.zeroDivisionError := by
  apply c1_division_by_zero 75000 (by norm_num)
  simp only [calculate_new_regime_2024_25]
  rw [show max ((75000 : ℚ) - 75000) 0 = 0 by norm_num, calc_A_eq]
  norm_num

/-- Helper for the zero-rate band: as soon as the taxable income is
positive, the first slab is entered and its line heads the breakdown. -/
theorem loop_first_line (income q rate : ℚ) (rest : List (Bound × ℚ)) (h : 0 < income) :
    ∃ tail, (calculate_tax_loop income ((Bound.fin q, rate) :: rest) 0 (.fin 0) []).2
      = ⟨0, .fin q, min income q - 0, rate, (min income q - 0) * rate⟩ :: tail := by
  simp only [calculate_tax_loop, if_pos h, Bound.minWith]
  rw [loop_bd_append]
  exact ⟨_, rfl⟩

/-- C2 counterexample: at income 0 both regimes return totalTax = 0 and
an empty breakdown (zero lines, not the claimed single zero-rate
line), because the loop guard `income > prev_slab` is strict. -/
theorem c2_counterexample :
    calculate_new_regime_2024_25 0 = (0, []) ∧
    calculate_new_regime_2025_26 0 = (0, []) := by
  have h : max ((0 : ℚ) - 75000) 0 = 0 := by norm_num
  constructor
  · simp only [calculate_new_regime_2024_25, calculate_tax, h]
    exact loop_skip 0 slabs_2024_25 0 0 [] (by norm_num)
  · simp only [calculate_new_regime_2025_26, calculate_tax, h]
    exact loop_skip 0 slabs_2025_26 0 0 [] (by norm_num)

/-- C2 (amended): income = 0 yields totalTax = 0 with an empty
breakdown (no slab is entered, since taxable income 0 fails the strict
test `income > prev_slab`); whenever any slab is entered, a breakdown
line is appended even when its tax contribution `amount * rate` is 0:
for every income above the exemption, the zero-rate first slab heads
the breakdown with taxInSlab = 0. -/
theorem c2_zero_income_breakdown :
    (calculate_new_regime_2024_25 0 = (0, []) ∧
     calculate_new_regime_2025_26 0 = (0, [])) ∧
    ∀ income : ℚ, 75000 < income →
      (∃ l tail, (calculate_new_regime_2024_25 income).2 = l :: tail ∧
        l.rate = 0 ∧ l.tax = 0) ∧
      (∃ l tail, (calculate_new_regime_2025_26 income).2 = l :: tail ∧
        l.rate = 0 ∧ l.tax = 0) := by
  have h : max ((0 : ℚ) - 75000) 0 = 0 := by norm_num
  refine ⟨⟨?_, ?_⟩, ?_⟩
  · simp only [calculate_new_regime_2024_25, calculate_tax, h]
    exact loop_skip 0 slabs_2024_25 0 0 [] (by norm_num)
  · simp only [calculate_new_regime_2025_26, calculate_tax, h]
    exact loop_skip 0 slabs_2025_26 0 0 [] (by norm_num)
  · intro income hinc
    have ht : 0 < max (income - 75000) 0 := lt_max_of_lt_left (by linarith)
    constructor
    · obtain ⟨tail, htail⟩ := loop_first_line (max (income - 75000) 0) 300000 0
        [(.fin 700000, 0.05), (.fin 1000000, 0.10), (.fin 1200000, 0.15),
         (.fin 1500000, 0.20), (.inf, 0.30)] ht
      refine ⟨⟨0, .fin 300000, min (max (income - 75000) 0) 300000 - 0, 0,
        (min (max (income - 75000) 0) 300000 - 0) * 0⟩, tail, ?_, rfl, by simp⟩
      simpa only [calculate_new_regime_2024_25, calculate_tax, slabs_2024_25] using htail
    · obtain ⟨tail, htail⟩ := loop_first_line (max (income - 75000) 0) 400000 0
        [(.fin 800000, 0.05), (.fin 1200000, 0.10), (.fin 1600000, 0.15),
         (.fin 2000000, 0.20), (.fin 2400000, 0.25), (.inf, 0.30)] ht
      refine ⟨⟨0, .fin 400000, min (max (income - 75000) 0) 400000 - 0, 0,
        (min (max (income - 75000) 0) 400000 - 0) * 0⟩, tail, ?_, rfl, by simp⟩
      simpa only [calculate_new_regime_2025_26, calculate_tax, slabs_2025_26] using htail

/-- C2 witness: at income 100,000 the zero-rate first slab heads both
breakdowns with a zero tax entry. -/
theorem c2_zero_income_breakdown_witness :
    (∃ l tail, (calculate_new_regime_2024_25 100000).2 = l :: tail ∧
      l.rate = 0 ∧ l.tax = 0) ∧
    (∃ l tail, (calculate_new_regime_2025_26 100000).2 = l :: tail ∧
      l.rate = 0 ∧ l.tax = 0) :=
  c2_zero_income_breakdown.2 100000 (by norm_num)

/-- C3 counterexample: at the fractional income 300000.5 the generated
bracket boundaries are 0, 100000, 200000, 300000 — every one of them is
strictly below the income, so the sweep does not include "the first
boundary ≥ income" as the claim states. -/
theorem c3_counterexample :
    income_brackets (600001 / 2) = [0, 100000, 200000, 300000] ∧
    ∀ b ∈ income_brackets (600001 / 2), (b : ℚ) < 600001 / 2 := by
  have hpy : pyint (600001 / 2) = 300000 := by
    rw [pyint, if_neg (by norm_num : ¬ (600001 / 2 : ℚ) < 0), Int.floor_eq_iff]
    norm_num
  have hbr : income_brackets (600001 / 2) = [0, 100000, 200000, 300000] := by
    rw [income_brackets, hpy]
    rfl
  refine ⟨hbr, ?_⟩
  rw [hbr]
  intro b hb
  fin_cases hb <;> norm_num

/-- C3 (amended): the sweep generates the boundaries 0, 100000, ...,
up to and including the first boundary that is ≥ the truncated income
`int(income)` (for integer incomes this is the first boundary ≥ the
income itself); in particular income = 250,000 produces exactly the
four boundaries 0, 100000, 200000, 300000. -/
theorem c3_bracket_boundaries :
    (∀ income : ℚ, 0 ≤ income →
      ∃ K, income_brackets income = (List.range (K + 1)).map (fun k => k * 100000) ∧
        (pyint income).toNat ≤ K * 100000 ∧
        ∀ k < K, k * 100000 < (pyint income).toNat) ∧
    income_brackets 250000 = [0, 100000, 200000, 300000] := by
  constructor
  · intro income _
    have hcount : ((pyint income).toNat + 100000 + 99999) / 100000
        = ((pyint income).toNat + 99999) / 100000 + 1 := by omega
    refine ⟨((pyint income).toNat + 99999) / 100000, ?_, by omega, fun k hk => by omega⟩
    rw [income_brackets, hcount]
  · have hpy : pyint 250000 = 250000 := by
      rw [pyint, if_neg (by norm_num : ¬ (250000 : ℚ) < 0), Int.floor_eq_iff]
      norm_num
    rw [income_brackets, hpy]
    rfl

/-- C3 witness: the boundary characterization instantiated at the
concrete income 150,000. -/
theorem c3_bracket_boundaries_witness :
    ∃ K, income_brackets 150000 = (List.range (K + 1)).map (fun k => k * 100000) ∧
      (pyint 150000).toNat ≤ K * 100000 ∧
      ∀ k < K, k * 100000 < (pyint 150000).toNat :=
  c3_bracket_boundaries.1 150000 (by norm_num)

/-- C4: for every income ≥ 0 and either slab table, the taxInSlab
entries of the returned breakdown sum exactly to the returned totalTax
(the model computes in exact rational arithmetic, so the floating-point
tolerance of the claim is met with exact equality), and totalTax ≥ 0. -/
theorem c4_breakdown_sums (income : ℚ) (h : 0 ≤ income) :
    (((calculate_new_regime_2024_25 income).2.map BreakdownLine.tax).sum
        = (calculate_new_regime_2024_25 income).1
      ∧ 0 ≤ (calculate_new_regime_2024_25 income).1) ∧
    (((calculate_new_regime_2025_26 income).2.map BreakdownLine.tax).sum
        = (calculate_new_regime_2025_26 income).1
      ∧ 0 ≤ (calculate_new_regime_2025_26 income).1) := by
  have hsum : ∀ (t : ℚ) (slabs : List (Bound × ℚ)),
      ((calculate_tax t slabs).2.map BreakdownLine.tax).sum = (calculate_tax t slabs).1 := by
    intro t slabs
    have h1 := loop_fst_eq_sum t slabs 0 (.fin 0) []
    simpa [calculate_tax] using h1.symm
  simp only [calculate_new_regime_2024_25, calculate_new_regime_2025_26]
  exact ⟨⟨hsum _ _, calc_A_nonneg _⟩, ⟨hsum _ _, calc_B_nonneg _⟩⟩

/-- C4 witness: the breakdown-sum identity and nonnegativity observed
at income 1,500,000. -/
theorem c4_breakdown_sums_witness :
    (((calculate_new_regime_2024_25 1500000).2.map BreakdownLine.tax).sum
        = (calculate_new_regime_2024_25 1500000).1
      ∧ 0 ≤ (calculate_new_regime_2024_25 1500000).1) ∧
    (((calculate_new_regime_2025_26 1500000).2.map BreakdownLine.tax).sum
        = (calculate_new_regime_2025_26 1500000).1
      ∧ 0 ≤ (calculate_new_regime_2025_26 1500000).1) :=
  c4_breakdown_sums 1500000 (by norm_num)

/-- C5: for 0 ≤ I1 < I2 the total tax under either slab table (with
its exemption) is monotone: tax(I1) ≤ tax(I2). -/
theorem c5_monotone (I1 I2 : ℚ) (h0 : 0 ≤ I1) (h12 : I1 < I2) :
    (calculate_new_regime_2024_25 I1).1 ≤ (calculate_new_regime_2024_25 I2).1 ∧
    (calculate_new_regime_2025_26 I1).1 ≤ (calculate_new_regime_2025_26 I2).1 := by
  have ht : max (I1 - 75000) 0 ≤ max (I2 - 75000) 0 :=
    max_le_max (by linarith) le_rfl
  simp only [calculate_new_regime_2024_25, calculate_new_regime_2025_26]
  exact ⟨calc_A_mono ht, calc_B_mono ht⟩

/-- C5 witness: monotonicity observed between incomes 100,000 and
1,500,000. -/
theorem c5_monotone_witness :
    (calculate_new_regime_2024_25 100000).1 ≤ (calculate_new_regime_2024_25 1500000).1 ∧
    (calculate_new_regime_2025_26 100000).1 ≤ (calculate_new_regime_2025_26 1500000).1 :=
  c5_monotone 100000 1500000 (by norm_num) (by norm_num)

/-- C9: for every income ≥ 0 the 2025-26 total tax never exceeds the
2024-25 total tax, so savings = totalTaxA - totalTaxB ≥ 0, and the
"prefer Regime A" branch (savings ≤ 0) is reached only when the two
taxes are exactly equal. -/
theorem c9_savings_nonneg (income : ℚ) (h : 0 ≤ income) :
    (calculate_new_regime_2025_26 income).1 ≤ (calculate_new_regime_2024_25 income).1 ∧
    0 ≤ (calculate_new_regime_2024_25 income).1 - (calculate_new_regime_2025_26 income).1 ∧
    ((calculate_new_regime_2024_25 income).1 - (calculate_new_regime_2025_26 income).1 ≤ 0 →
      (calculate_new_regime_2024_25 income).1 = (calculate_new_regime_2025_26 income).1) := by
  simp only [calculate_new_regime_2024_25, calculate_new_regime_2025_26]
  have hle := calc_B_le_calc_A (max (income - 75000) 0)
  exact ⟨hle, by linarith, fun hs => le_antisymm (by linarith) hle⟩

/-- C9 witness: the savings comparison observed at income 1,500,000. -/
theorem c9_savings_nonneg_witness :
    (calculate_new_regime_2025_26 1500000).1 ≤ (calculate_new_regime_2024_25 1500000).1 ∧
    0 ≤ (calculate_new_regime_2024_25 1500000).1 - (calculate_new_regime_2025_26 1500000).1 ∧
    ((calculate_new_regime_2024_25 1500000).1 - (calculate_new_regime_2025_26 1500000).1 ≤ 0 →
      (calculate_new_regime_2024_25 1500000).1 = (calculate_new_regime_2025_26 1500000).1) :=
  c9_savings_nonneg 1500000 (by norm_num)

/-- C10: for every income ≥ 0 and either slab table, the breakdown
partitions the taxable income exactly: the taxableAmountInSlab entries
sum to max(income - 75000, 0), and every line's taxableAmountInSlab is
strictly positive. -/
theorem c10_breakdown_partition (income : ℚ) (h : 0 ≤ income) :
    (((calculate_new_regime_2024_25 income).2.map BreakdownLine.taxableAmount).sum
        = max (income - 75000) 0
      ∧ ∀ l ∈ (calculate_new_regime_2024_25 income).2, 0 < l.taxableAmount) ∧
    (((calculate_new_regime_2025_26 income).2.map BreakdownLine.taxableAmount).sum
        = max (income - 75000) 0
      ∧ ∀ l ∈ (calculate_new_regime_2025_26 income).2, 0 < l.taxableAmount) := by
  have main : ∀ slabs : List (Bound × ℚ), slabChain 0 slabs →
      ((calculate_tax (max (income - 75000) 0) slabs).2.map BreakdownLine.taxableAmount).sum
          = max (income - 75000) 0
        ∧ ∀ l ∈ (calculate_tax (max (income - 75000) 0) slabs).2, 0 < l.taxableAmount := by
    intro slabs hchain
    have ht0 : (0 : ℚ) ≤ max (income - 75000) 0 := le_max_right _ _
    rcases eq_or_lt_of_le ht0 with heq | hlt
    · rw [calculate_tax, loop_skip (max (income - 75000) 0) slabs 0 0 []
        (by rw [← heq]; norm_num)]
      exact ⟨by simpa using heq.symm, by simp⟩
    · constructor
      · have hs := loop_amount_sum (max (income - 75000) 0) slabs 0 0 [] hchain hlt
        simpa [calculate_tax] using hs
      · exact loop_amount_pos (max (income - 75000) 0) slabs 0 0 [] hchain (by simp)
  simp only [calculate_new_regime_2024_25, calculate_new_regime_2025_26]
  exact ⟨main _ slabChain_2024_25, main _ slabChain_2025_26⟩

/-- C10 witness: the partition property observed at income 1,000,000. -/
theorem c10_breakdown_partition_witness :
    (((calculate_new_regime_2024_25 1000000).2.map BreakdownLine.taxableAmount).sum
        = max ((1000000 : ℚ) - 75000) 0
      ∧ ∀ l ∈ (calculate_new_regime_2024_25 1000000).2, 0 < l.taxableAmount) ∧
    (((calculate_new_regime_2025_26 1000000).2.map BreakdownLine.taxableAmount).sum
        = max ((1000000 : ℚ) - 75000) 0
      ∧ ∀ l ∈ (calculate_new_regime_2025_26 1000000).2, 0 < l.taxableAmount) :=
  c10_breakdown_partition 1000000 (by norm_num)
